import Mathlib

/-!
Shallow embedding of the NBA-Player-Shot-Comparison repository
(`webScraper.py`, `scatter_charts.py`, `multi_player_charts.py`).

Python strings are modelled as Lean `String`, Python `int` as `Int`,
Python `float` as the exact rational `Rat` (the float literals and the
divisions appearing in the source are all exactly representable /
exactly computed at the granularity the claims need), Python `dict`
(insertion ordered) as an association list with update-or-append
assignment, Python `None` as `Option.none`, and a raised-and-caught
exception as an explicit error constructor.
-/

namespace ShotComparison

/-! ## String helpers (model of the Python string operations used) -/

/-- Model of Python `needle in hay` restricted to lists of characters:
`leadsList n h` says `n` is an initial segment of `h`. -/
def leadsList : List Char → List Char → Bool
  | [], _ => true
  | _ :: _, [] => false
  | a :: as, b :: bs => a = b && leadsList as bs

/-- Whether `needle` occurs contiguously inside `hay`
(Python's `needle in hay` on strings; the empty needle matches). -/
def hasSegment (needle : List Char) : List Char → Bool
  | [] => needle.isEmpty
  | c :: rest => leadsList needle (c :: rest) || hasSegment needle rest

/-- Python `sub in hay` on strings. -/
def pyContains (hay sub : String) : Bool :=
  hasSegment sub.data hay.data

/-- Python `s.lower()` (ASCII model, as in the repository's inputs). -/
def pyLower (s : String) : String :=
  ⟨s.data.map Char.toLower⟩

/-- Python `s.rstrip('%')`: remove every trailing `'%'` character. -/
def rstripPercent (s : String) : String :=
  ⟨(s.data.reverse.dropWhile (· = '%')).reverse⟩

/-- Python `s.strip()`: remove leading and trailing whitespace. -/
def pyStrip (s : String) : String :=
  ⟨((s.data.dropWhile Char.isWhitespace).reverse.dropWhile Char.isWhitespace).reverse⟩

/-! ## Python numeric literal parsers

`int(text)` / `float(text)` on already-stripped text, returning `none`
exactly when Python raises `ValueError`.  The model covers an optional
sign followed by decimal digits (and for `float` an optional fractional
part) — the forms the scraped tables and the claims exercise. -/

/-- Decimal value of a digit list (most significant first). -/
def natOfDigits (cs : List Char) : Nat :=
  cs.foldl (fun a c => 10 * a + (c.toNat - 48)) 0

/-- A nonempty all-digit list, or failure. -/
def digitsVal? (cs : List Char) : Option Nat :=
  if cs ≠ [] ∧ cs.all Char.isDigit then some (natOfDigits cs) else none

/-- Model of Python `int(s)` on stripped text. -/
def pyInt? (s : String) : Option Int :=
  match s.data with
  | '+' :: rest => (digitsVal? rest).map Int.ofNat
  | '-' :: rest => (digitsVal? rest).map (fun n => -(n : Int))
  | cs => (digitsVal? cs).map Int.ofNat

/-- Unsigned decimal as a numerator/denominator pair: digits, optionally
a point and more digits, at least one digit in total (Python accepts
`"5."` and `".5"`). -/
def decimalParts? (cs : List Char) : Option (Nat × Nat) :=
  let intPart := cs.takeWhile Char.isDigit
  match cs.dropWhile Char.isDigit with
  | [] => if intPart.isEmpty then none else some (natOfDigits intPart, 1)
  | '.' :: frac =>
    if frac.all Char.isDigit ∧ (intPart ≠ [] ∨ frac ≠ []) then
      some (natOfDigits intPart * 10 ^ frac.length + natOfDigits frac, 10 ^ frac.length)
    else none
  | _ => none

/-- Model of Python `float(s)` on stripped text. -/
def pyFloat? (s : String) : Option Rat :=
  match s.data with
  | '+' :: rest => (decimalParts? rest).map (fun p => mkRat p.1 p.2)
  | '-' :: rest => (decimalParts? rest).map (fun p => mkRat (-(p.1 : Int)) p.2)
  | cs => (decimalParts? cs).map (fun p => mkRat p.1 p.2)

/-! ## Python `dict` model (insertion ordered association list) -/

/-- Python `m[k] = v`: overwrite in place if the key is present,
otherwise append at the end (insertion order). -/
def dictSet (m : List (String × α)) (k : String) (v : α) : List (String × α) :=
  if m.any (fun p => p.1 = k) then
    m.map (fun p => if p.1 = k then (k, v) else p)
  else
    m ++ [(k, v)]

/-- Python `m[k]` / `k in m` combined: the value at key `k`, if any. -/
def dictGet (m : List (String × α)) (k : String) : Option α :=
  (m.find? (fun p => p.1 = k)).map Prod.snd

/-! ## Data model -/

/-- One per-zone record, the Python dict `{'FGM': _, 'FGA': _, 'FG%': _}`. -/
structure ZoneStats where
  FGM : Int
  FGA : Int
  FGpct : Rat
  deriving DecidableEq, Repr

/-- The zone part of a shooting-data dict: zone label → record. -/
abbrev ZoneMap := List (String × ZoneStats)

/-- A value stored in a profile dict: either a zone record or one of the
string metadata entries (`'player_name'` / `'season'`).  Both kinds live
in the one Python dict returned by `get_player_shooting_data`. -/
inductive ProfileEntry where
  | stats (s : ZoneStats)
  | str (s : String)
  deriving DecidableEq, Repr

/-- The dict returned by `get_player_shooting_data` / `_create_sample_data`. -/
abbrev Profile := List (String × ProfileEntry)

/-! ## `BasketballReferenceScraper._parse_shooting_table` -/

/-- One numeric cell of the shooting table, as accessed by
`int(cells[i].get_text().strip()) if cells[i].get_text().strip() else 0`:
an absent cell is an `IndexError` (`none` in), a blank cell defaults to
`0`, non-numeric text is a `ValueError` (`none` out). -/
def parseCellInt (c : Option String) : Option Int :=
  match c with
  | none => none
  | some t => if pyStrip t = "" then some 0 else pyInt? (pyStrip t)

/-- The percentage cell, as accessed by
`float(cells[3].get_text().strip().rstrip('%')) if ... else 0`. -/
def parseCellPct (c : Option String) : Option Rat :=
  match c with
  | none => none
  | some t => if pyStrip t = "" then some 0 else pyFloat? (rstripPercent (pyStrip t))

/-- The body of the `for row in rows` loop of `_parse_shooting_table`:
rows with fewer than 3 cells, a blank or header (`'Zone'`) label, or any
`ValueError`/`IndexError` in the three numeric cells are skipped whole;
otherwise `data[zone] = {'FGM': fgm, 'FGA': fga, 'FG%': fg_pct}`. -/
def rowStep (data : ZoneMap) (cells : List String) : ZoneMap :=
  if 3 ≤ cells.length then
    let zone := pyStrip (cells[0]?.getD "")
    if zone ≠ "" ∧ zone ≠ "Zone" then
      match parseCellInt cells[1]?, parseCellInt cells[2]?, parseCellPct cells[3]? with
      | some fgm, some fga, some pct => dictSet data zone ⟨fgm, fga, pct⟩
      | _, _, _ => data
    else data
  else data

/-- Model of `BasketballReferenceScraper._parse_shooting_table`: a table is its
row list, each row the list of its cells' stripped-ready text. -/
def parse_shooting_table (rows : List (List String)) : ZoneMap :=
  rows.foldl rowStep []

/-! ## `BasketballReferenceScraper._create_sample_data` -/

/-- The `"curry"` branch of `_create_sample_data` (a float literal
`d.f` is written `mkRat df 10` to stay kernel-computable). -/
def curryZones : ZoneMap :=
  [("Restricted Area", ⟨45, 60, mkRat 750 10⟩),
   ("In The Paint (Non-RA)", ⟨25, 50, mkRat 500 10⟩),
   ("Mid-Range", ⟨30, 80, mkRat 375 10⟩),
   ("Left Corner 3", ⟨15, 30, mkRat 500 10⟩),
   ("Right Corner 3", ⟨18, 35, mkRat 514 10⟩),
   ("Above the Break 3", ⟨120, 300, mkRat 400 10⟩)]

/-- The `"lebron" or "james"` branch of `_create_sample_data`. -/
def lebronZones : ZoneMap :=
  [("Restricted Area", ⟨180, 250, mkRat 720 10⟩),
   ("In The Paint (Non-RA)", ⟨80, 150, mkRat 533 10⟩),
   ("Mid-Range", ⟨60, 120, mkRat 500 10⟩),
   ("Left Corner 3", ⟨25, 60, mkRat 417 10⟩),
   ("Right Corner 3", ⟨30, 70, mkRat 429 10⟩),
   ("Above the Break 3", ⟨45, 150, mkRat 300 10⟩)]

/-- The generic branch of `_create_sample_data`. -/
def genericZones : ZoneMap :=
  [("Restricted Area", ⟨100, 150, mkRat 667 10⟩),
   ("In The Paint (Non-RA)", ⟨50, 100, mkRat 500 10⟩),
   ("Mid-Range", ⟨40, 100, mkRat 400 10⟩),
   ("Left Corner 3", ⟨20, 50, mkRat 400 10⟩),
   ("Right Corner 3", ⟨25, 60, mkRat 417 10⟩),
   ("Above the Break 3", ⟨60, 180, mkRat 333 10⟩)]

/-- Lift a zone map into profile entries. -/
def zonesAsEntries (m : ZoneMap) : Profile :=
  m.map (fun p => (p.1, ProfileEntry.stats p.2))

/-- The `if/elif/else` dispatch of `_create_sample_data` (lines 127–154):
`"curry" in player_name.lower()`, then `"lebron" ... or "james" ...`,
else the generic table. -/
def sampleZonesFor (player_name : String) : ZoneMap :=
  if pyContains (pyLower player_name) "curry" then curryZones
  else if pyContains (pyLower player_name) "lebron" || pyContains (pyLower player_name) "james" then
    lebronZones
  else genericZones

/-- Model of `BasketballReferenceScraper._create_sample_data`: dispatch on the
lower-cased name, then `sample_data['player_name'] = player_name` and
`sample_data['season'] = '2024'` into the same dict. -/
def create_sample_data (player_name : String) : Profile :=
  dictSet (dictSet (zonesAsEntries (sampleZonesFor player_name))
      "player_name" (.str player_name))
    "season" (.str "2024")

/-! ## `BasketballReferenceScraper.search_player` -/

/-- Outcome of the search request + soup parse: the `(text, href)` pairs
of all anchors of the result page in document order, or a raised
exception (network failure / malformed response). -/
inductive SearchOutcome where
  | ok (links : List (String × String))
  | err
  deriving Repr

/-- The regex `re.compile(r'/players/[a-z]/')` matched (as `re.search`) against an
anchor's `href`, as `soup.find_all('a', href=...)` filters. -/
def startsPlayersPat (cs : List Char) : Bool :=
  leadsList "/players/".data cs &&
    match cs.drop 9 with
    | c :: '/' :: _ => c.isLower
    | _ => false

/-- Scan every suffix for the players-href pattern. -/
def hasPlayersPat : List Char → Bool
  | [] => false
  | c :: rest => startsPlayersPat (c :: rest) || hasPlayersPat rest

/-- Somewhere in the href the pattern `/players/[a-z]/` occurs. -/
def isPlayersLink (href : String) : Bool :=
  hasPlayersPat href.data

/-- The `for link in player_links` loop: return the href of the first
link whose text contains the query (both lower-cased), else `None`. -/
def searchLoop (player_name : String) : List (String × String) → Option String
  | [] => none
  | (txt, href) :: rest =>
    if pyContains (pyLower txt) (pyLower player_name) then some href
    else searchLoop player_name rest

/-- Model of `BasketballReferenceScraper.search_player`: on any exception return
`None`; otherwise filter the page's anchors by the players-href regex
and return the first whose text contains the name case-insensitively. -/
def search_player (player_name : String) (res : SearchOutcome) : Option String :=
  match res with
  | .err => none
  | .ok links => searchLoop player_name (links.filter (fun l => isPlayersLink l.2))

/-! ## `BasketballReferenceScraper.get_player_shooting_data` -/

/-- A fetch that either returns a parsed document or raises. -/
inductive Fetched (α : Type) where
  | ok (a : α)
  | err

/-- The player page, reduced to the two queries the code performs on it:
`soup.find('table', {'id': 'shooting'})` (the table's rows, if the table
exists) and `soup.find_all('a', href=re.compile(f'/{season}.html'))`
(the matching hrefs in document order, for the requested season). -/
structure PlayerPage where
  shootingTable : Option (List (List String))
  seasonLinks : List String

/-- The external world of one `get_player_shooting_data` call: the
search-request outcome, the player-page fetch, and for each sub-page
href the fetch of that page reduced to its `table#shooting` rows. -/
structure World where
  search : SearchOutcome
  playerPage : Fetched PlayerPage
  shootingPage : String → Fetched (Option (List (List String)))

/-- Lines 83–87 of `webScraper.py`: parse the table, then
`shooting_data['player_name'] = player_name` and
`shooting_data['season'] = season` into the same dict. -/
def finishProfile (player_name season : String) (table : List (List String)) : Profile :=
  dictSet (dictSet (zonesAsEntries (parse_shooting_table table))
      "player_name" (.str player_name))
    "season" (.str season)

/-- Model of `BasketballReferenceScraper.get_player_shooting_data`.
`None` from `search_player` returns `None`; inside the `try` block, a
directly embedded `table#shooting` is parsed; otherwise the first season
link whose href contains `'shooting'` is fetched once (`break` after the
first) and its table parsed if present; if no table is found by either
tier, the re-`find` on the same soup again yields nothing and sample
data is returned; any exception also returns sample data. -/
def get_player_shooting_data (player_name season : String) (w : World) : Option Profile :=
  match search_player player_name w.search with
  | none => none
  | some _player_url =>
    match w.playerPage with
    | .err => some (create_sample_data player_name)
    | .ok page =>
      match page.shootingTable with
      | some table => some (finishProfile player_name season table)
      | none =>
        match page.seasonLinks.find? (fun href => pyContains href "shooting") with
        | some href =>
          match w.shootingPage href with
          | .err => some (create_sample_data player_name)
          | .ok (some table) => some (finishProfile player_name season table)
          | .ok none => some (create_sample_data player_name)
        | none => some (create_sample_data player_name)

/-! ## Concrete worlds used as test inputs -/

/-- A search result page with one matching LeBron link. -/
def lebronLinks : List (String × String) :=
  [("LeBron James", "/players/j/jamesle01.html")]

/-- The search succeeds but returns no candidates: the NotFound path. -/
def notFoundWorld : World :=
  ⟨.ok [], .ok ⟨none, []⟩, fun _ => .err⟩

/-- The search succeeds and the player-page fetch raises. -/
def networkDownWorld : World :=
  ⟨.ok lebronLinks, .err, fun _ => .err⟩

/-- The search succeeds and the player page holds a shooting table whose
only row is the header, so extraction yields zero zone rows. -/
def emptyTableWorld : World :=
  ⟨.ok lebronLinks, .ok ⟨some [["Zone", "FGM", "FGA", "FG%"]], []⟩, fun _ => .err⟩

/-- Jokić is found by the search but the page fetch raises. -/
def jokicFallbackWorld : World :=
  ⟨.ok [("Nikola Jokic", "/players/j/jokicni01.html")], .err, fun _ => .err⟩

/-- Curry is found and the page carries a one-zone shooting table. -/
def curryTableWorld : World :=
  ⟨.ok [("Stephen Curry", "/players/c/curryst01.html")],
   .ok ⟨some [["Zone", "FGM", "FGA", "FG%"], ["Mid-Range", "12", "30", "40.0"]], []⟩,
   fun _ => .err⟩

/-! ## `_calculate_total_stats` (scatter_charts.py and multi_player_charts.py) -/

/-- The value `player_data[zone].get('FGA', 0)` summed under `if zone in player_data`,
i.e. the zone's attempts, or 0 when the zone is absent. -/
def zoneFGA (m : ZoneMap) (z : String) : Int :=
  match dictGet m z with
  | some r => r.FGA
  | none => 0

/-- The zone's makes, or 0 when the zone is absent. -/
def zoneFGM (m : ZoneMap) (z : String) : Int :=
  match dictGet m z with
  | some r => r.FGM
  | none => 0

/-- The `stats` dict of `BasketballScatterCharts._calculate_total_stats`. -/
structure ScatterTotals where
  total_fga : Int
  total_fgm : Int
  total_fg_pct : Rat
  fga3 : Int
  fgm3 : Int
  fg_pct3 : Rat
  fga2 : Int
  fgm2 : Int
  fg_pct2 : Rat
  deriving DecidableEq, Repr

/-- Model of `BasketballScatterCharts._calculate_total_stats` (scatter_charts.py,
lines 208–247).  Field `fga3` is the dict entry `'3pt_fga'` and so on;
every percentage is guarded by `if stats[..._fga] > 0`. -/
def scatter_calculate_total_stats (m : ZoneMap) : ScatterTotals :=
  let fga3 := zoneFGA m "Left Corner 3" + zoneFGA m "Right Corner 3" + zoneFGA m "Above the Break 3"
  let fgm3 := zoneFGM m "Left Corner 3" + zoneFGM m "Right Corner 3" + zoneFGM m "Above the Break 3"
  let fga2 := zoneFGA m "Restricted Area" + zoneFGA m "In The Paint (Non-RA)" + zoneFGA m "Mid-Range"
  let fgm2 := zoneFGM m "Restricted Area" + zoneFGM m "In The Paint (Non-RA)" + zoneFGM m "Mid-Range"
  let fg_pct3 : Rat := if 0 < fga3 then ((fgm3 : Rat) / (fga3 : Rat)) * 100 else 0
  let fg_pct2 : Rat := if 0 < fga2 then ((fgm2 : Rat) / (fga2 : Rat)) * 100 else 0
  let total_fga := fga3 + fga2
  let total_fgm := fgm3 + fgm2
  let total_fg_pct : Rat := if 0 < total_fga then ((total_fgm : Rat) / (total_fga : Rat)) * 100 else 0
  ⟨total_fga, total_fgm, total_fg_pct, fga3, fgm3, fg_pct3, fga2, fgm2, fg_pct2⟩

/-- The `stats` dict of `MultiPlayerScatterCharts._calculate_total_stats`,
which additionally carries the free-throw category. -/
structure MultiTotals where
  total_fga : Int
  total_fgm : Int
  total_fg_pct : Rat
  fga3 : Int
  fgm3 : Int
  fg_pct3 : Rat
  fga2 : Int
  fgm2 : Int
  fg_pct2 : Rat
  ft_fga : Int
  ft_fgm : Int
  ft_fg_pct : Rat
  deriving DecidableEq, Repr

/-- Model of `MultiPlayerScatterCharts._calculate_total_stats` (multi_player_charts.py,
lines 194–244): as the scatter version, plus `'Free Throws'` taken
directly (default 0 when absent); the total still sums only 3PT + 2PT. -/
def multi_calculate_total_stats (m : ZoneMap) : MultiTotals :=
  let fga3 := zoneFGA m "Left Corner 3" + zoneFGA m "Right Corner 3" + zoneFGA m "Above the Break 3"
  let fgm3 := zoneFGM m "Left Corner 3" + zoneFGM m "Right Corner 3" + zoneFGM m "Above the Break 3"
  let fga2 := zoneFGA m "Restricted Area" + zoneFGA m "In The Paint (Non-RA)" + zoneFGA m "Mid-Range"
  let fgm2 := zoneFGM m "Restricted Area" + zoneFGM m "In The Paint (Non-RA)" + zoneFGM m "Mid-Range"
  let ft_fga := zoneFGA m "Free Throws"
  let ft_fgm := zoneFGM m "Free Throws"
  let fg_pct3 : Rat := if 0 < fga3 then ((fgm3 : Rat) / (fga3 : Rat)) * 100 else 0
  let fg_pct2 : Rat := if 0 < fga2 then ((fgm2 : Rat) / (fga2 : Rat)) * 100 else 0
  let ft_fg_pct : Rat := if 0 < ft_fga then ((ft_fgm : Rat) / (ft_fga : Rat)) * 100 else 0
  let total_fga := fga3 + fga2
  let total_fgm := fgm3 + fgm2
  let total_fg_pct : Rat := if 0 < total_fga then ((total_fgm : Rat) / (total_fga : Rat)) * 100 else 0
  ⟨total_fga, total_fgm, total_fg_pct, fga3, fgm3, fg_pct3, fga2, fgm2, fg_pct2,
   ft_fga, ft_fgm, ft_fg_pct⟩

/-! ## `ShotChartVisualizer.create_shot_chart` zone selection -/

/-- The keys of `ShotChartVisualizer.court_zones`. -/
def courtZoneNames : List String :=
  ["Restricted Area", "In The Paint (Non-RA)", "Mid-Range",
   "Left Corner 3", "Right Corner 3", "Above the Break 3"]

/-- Python `'FG%' in data` for a profile value: membership for a zone
record dict (which always carries the key in this repository), substring
containment when the value is one of the metadata strings. -/
def hasFGpctField : ProfileEntry → Bool
  | .stats _ => true
  | .str s => pyContains s "FG%"

/-- The entries `create_shot_chart` plots: the loop
`for zone, data in player_data.items(): if zone in self.court_zones and 'FG%' in data:`. -/
def plottedEntries (p : Profile) : Profile :=
  p.filter (fun e => courtZoneNames.contains e.1 && hasFGpctField e.2)

/-! ## Dictionary lemmas -/

theorem dictGet_nil (k : String) : dictGet ([] : List (String × α)) k = none := rfl

theorem dictGet_cons (a : String × α) (m : List (String × α)) (k : String) :
    dictGet (a :: m) k = if a.1 = k then some a.2 else dictGet m k := by
  by_cases h : a.1 = k <;> simp [dictGet, List.find?_cons, h]

theorem dictGet_of_not_any (m : List (String × α)) (k : String)
    (h : m.any (fun p => p.1 = k) = false) : dictGet m k = none := by
  induction m with
  | nil => rfl
  | cons a t ih =>
    simp only [List.any_cons, Bool.or_eq_false_iff] at h
    have ha : ¬a.1 = k := by simpa using h.1
    rw [dictGet_cons, if_neg ha]
    exact ih h.2

theorem dictGet_append_of_none (m l : List (String × α)) (k : String)
    (h : dictGet m k = none) : dictGet (m ++ l) k = dictGet l k := by
  induction m with
  | nil => rfl
  | cons a t ih =>
    rw [dictGet_cons] at h
    by_cases ha : a.1 = k
    · rw [if_pos ha] at h; exact absurd h (by simp)
    · rw [if_neg ha] at h
      rw [List.cons_append, dictGet_cons, if_neg ha]
      exact ih h

theorem dictGet_map_update_self (m : List (String × α)) (k : String) (v : α)
    (h : m.any (fun p => p.1 = k) = true) :
    dictGet (m.map fun p => if p.1 = k then (k, v) else p) k = some v := by
  induction m with
  | nil => simp at h
  | cons a t ih =>
    simp only [List.any_cons, Bool.or_eq_true] at h
    by_cases ha : a.1 = k
    · simp [dictGet_cons, ha]
    · have ht : t.any (fun p => p.1 = k) = true := by
        rcases h with h | h
        · exact absurd (by simpa using h) ha
        · exact h
      simp only [List.map_cons, if_neg ha, dictGet_cons, if_neg ha]
      exact ih ht

theorem dictGet_map_update_ne (m : List (String × α)) (k k' : String) (v : α)
    (h : k' ≠ k) :
    dictGet (m.map fun p => if p.1 = k then (k, v) else p) k' = dictGet m k' := by
  induction m with
  | nil => rfl
  | cons a t ih =>
    by_cases ha : a.1 = k
    · have hkk : ¬k = k' := fun e => h e.symm
      have ha' : ¬a.1 = k' := by rw [ha]; exact hkk
      simp only [List.map_cons, if_pos ha, dictGet_cons, if_neg hkk, if_neg ha']
      exact ih
    · by_cases ha' : a.1 = k'
      · simp [List.map_cons, if_neg ha, dictGet_cons, if_pos ha']
      · simp only [List.map_cons, if_neg ha, dictGet_cons, if_neg ha']
        exact ih

theorem dictGet_append_single_ne (m : List (String × α)) (k k' : String) (v : α)
    (h : k' ≠ k) : dictGet (m ++ [(k, v)]) k' = dictGet m k' := by
  induction m with
  | nil =>
    have : ¬k = k' := fun e => h e.symm
    simp [dictGet_cons, this, dictGet_nil]
  | cons a t ih =>
    by_cases ha : a.1 = k'
    · simp [List.cons_append, dictGet_cons, ha]
    · simp only [List.cons_append, dictGet_cons, if_neg ha]
      exact ih

/-- Reading a freshly assigned key returns the assigned value. -/
theorem dictGet_dictSet_self (m : List (String × α)) (k : String) (v : α) :
    dictGet (dictSet m k v) k = some v := by
  unfold dictSet
  split
  · exact dictGet_map_update_self m k v (by assumption)
  · rename_i h
    rw [Bool.not_eq_true] at h
    rw [dictGet_append_of_none _ _ _ (dictGet_of_not_any m k h)]
    simp [dictGet_cons]

/-- Assignment to one key leaves every other key's value unchanged. -/
theorem dictGet_dictSet_ne (m : List (String × α)) (k k' : String) (v : α)
    (h : k' ≠ k) : dictGet (dictSet m k v) k' = dictGet m k' := by
  unfold dictSet
  split
  · exact dictGet_map_update_ne m k k' v h
  · exact dictGet_append_single_ne m k k' v h

theorem dictGet_zonesAsEntries (m : ZoneMap) (k : String) :
    dictGet (zonesAsEntries m) k = (dictGet m k).map ProfileEntry.stats := by
  induction m with
  | nil => rfl
  | cons a t ih =>
    show dictGet ((a.1, ProfileEntry.stats a.2) :: zonesAsEntries t) k = _
    rw [dictGet_cons, dictGet_cons]
    by_cases ha : a.1 = k
    · simp [ha]
    · simp only [if_neg ha]
      exact ih

/-! ## Lemmas about the search loop and the row parser -/

theorem searchLoop_eq_find (q : String) (l : List (String × String)) :
    searchLoop q l =
      (l.find? fun p => pyContains (pyLower p.1) (pyLower q)).map Prod.snd := by
  induction l with
  | nil => rfl
  | cons a t ih =>
    obtain ⟨txt, href⟩ := a
    by_cases hc : pyContains (pyLower txt) (pyLower q) = true
    · simp [searchLoop, List.find?_cons, hc]
    · simp only [Bool.not_eq_true] at hc
      simp [searchLoop, List.find?_cons, hc, ih]

/-- A row on which any of the three numeric cells raises contributes
nothing: the `except (ValueError, IndexError): continue` path. -/
theorem rowStep_of_fail (data : ZoneMap) (cells : List String)
    (h : parseCellInt cells[1]? = none ∨ parseCellInt cells[2]? = none ∨
      parseCellPct cells[3]? = none) :
    rowStep data cells = data := by
  unfold rowStep
  split
  · rcases hA : parseCellInt cells[1]? with _ | f1 <;>
      rcases hB : parseCellInt cells[2]? with _ | f2 <;>
      rcases hC : parseCellPct cells[3]? with _ | f3 <;>
      simp_all
  · rfl

/-- Annotating a dict with `player_name` then `season` leaves the
`player_name` entry readable. -/
theorem dictGet_meta_name (p : Profile) (n s : String) :
    dictGet (dictSet (dictSet p "player_name" (.str n)) "season" (.str s))
      "player_name" = some (.str n) := by
  rw [dictGet_dictSet_ne _ _ _ _ (by decide), dictGet_dictSet_self]

/-- The `season` entry of an annotated dict. -/
theorem dictGet_meta_season (p : Profile) (n s : String) :
    dictGet (dictSet (dictSet p "player_name" (.str n)) "season" (.str s))
      "season" = some (.str s) :=
  dictGet_dictSet_self _ _ _

/-- The function `create_sample_data` is exactly a zone map annotated with the name
and the constant season `'2024'`. -/
theorem create_sample_data_shape (n : String) :
    ∃ m : ZoneMap, create_sample_data n =
      dictSet (dictSet (zonesAsEntries m) "player_name" (.str n))
        "season" (.str "2024") :=
  ⟨_, rfl⟩

/-- C5: `_parse_shooting_table` is all-or-nothing per row.  First part:
a row whose attempt-count cell holds non-empty text rejected by `int`
contributes no entry at all (deleting it from the table leaves the
result unchanged, so no partially populated record is ever inserted).
Second part: on a table with one well-formed row and one row whose
attempt-count cell is non-numeric, the result holds exactly the
well-formed zone. -/
theorem parse_row_all_or_nothing :
    (∀ (pre post : List (List String)) (cells : List String) (t : String),
        cells[2]? = some t → pyStrip t ≠ "" → pyInt? (pyStrip t) = none →
        parse_shooting_table (pre ++ cells :: post) =
          parse_shooting_table (pre ++ post))
    ∧ parse_shooting_table
        [["Mid-Range", "12", "30", "40.0"], ["Restricted Area", "10", "abc", "50.0"]] =
      [("Mid-Range", ⟨12, 30, 40⟩)] := by
  constructor
  · intro pre post cells t h2 hne hfail
    have hcell : parseCellInt cells[2]? = none := by
      rw [h2]
      simp only [parseCellInt, if_neg hne]
      exact hfail
    unfold parse_shooting_table
    rw [List.foldl_append, List.foldl_append, List.foldl_cons,
      rowStep_of_fail _ _ (Or.inr (Or.inl hcell))]
  · decide

/-- Witness for C5 at a concrete malformed row and the concrete table. -/
theorem parse_row_all_or_nothing_witness :
    parse_shooting_table ([["Mid-Range", "12", "30", "40.0"]] ++
        ["Restricted Area", "10", "abc", "50.0"] :: []) =
      parse_shooting_table ([["Mid-Range", "12", "30", "40.0"]] ++ []) ∧
    parse_shooting_table
        [["Mid-Range", "12", "30", "40.0"], ["Restricted Area", "10", "abc", "50.0"]] =
      [("Mid-Range", ⟨12, 30, 40⟩)] :=
  ⟨parse_row_all_or_nothing.1 [["Mid-Range", "12", "30", "40.0"]] []
      ["Restricted Area", "10", "abc", "50.0"] "abc" rfl (by decide) (by decide),
    parse_row_all_or_nothing.2⟩

/-- C6 counterexample: the claim says a row with a *missing* percentage
cell is still stored (with percentage 0) and a non-numeric made cell
defaults to 0; in the code a 3-cell row raises `IndexError` on
`cells[3]` and a non-numeric cell raises `ValueError`, so both rows are
skipped entirely and no entry is stored. -/
theorem parse_cell_defaults_counterexample :
    dictGet (parse_shooting_table [["Mid-Range", "5", "10"]]) "Mid-Range" = none ∧
    dictGet (parse_shooting_table [["Restricted Area", "x", "10", "50.0"]])
      "Restricted Area" = none := by
  decide

/-- C6 (amended): per-cell tolerance applies to *empty* cells only — an
empty made/attempted cell defaults that field to 0 and an empty
percentage cell defaults the percentage to 0, the row still being
stored; an absent cell (`IndexError`, `none`) or non-numeric text makes
the whole row be skipped, e.g. every 3-cell row. -/
theorem parse_cell_defaults :
    (∀ t : String, pyStrip t = "" → parseCellInt (some t) = some 0)
    ∧ (∀ t : String, pyStrip t = "" → parseCellPct (some t) = some 0)
    ∧ (parseCellInt none = none ∧ parseCellPct none = none)
    ∧ (∀ (data : ZoneMap) (cells : List String), cells.length = 3 →
        rowStep data cells = data)
    ∧ (∀ (data : ZoneMap) (z p : String) (q : Rat),
        pyStrip z ≠ "" → pyStrip z ≠ "Zone" → parseCellPct (some p) = some q →
        rowStep data [z, "", "", p] = dictSet data (pyStrip z) ⟨0, 0, q⟩) := by
  refine ⟨fun t h => by simp [parseCellInt, h], fun t h => by simp [parseCellPct, h],
    ⟨rfl, rfl⟩, fun data cells h => ?_, fun data z p q hz1 hz2 hp => ?_⟩
  · refine rowStep_of_fail _ _ (Or.inr (Or.inr ?_))
    have h3 : cells[3]? = none := List.getElem?_eq_none (by omega)
    rw [h3]
    rfl
  · have hshape : rowStep data [z, "", "", p] =
        if pyStrip z ≠ "" ∧ pyStrip z ≠ "Zone" then
          match parseCellInt (some ""), parseCellInt (some ""), parseCellPct (some p) with
          | some fgm, some fga, some pct => dictSet data (pyStrip z) ⟨fgm, fga, pct⟩
          | _, _, _ => data
        else data := rfl
    rw [hshape, if_pos ⟨hz1, hz2⟩, hp]
    rfl

/-- Witness for C6: an all-empty-cells row is stored with the default
record, and a concrete 3-cell row is skipped. -/
theorem parse_cell_defaults_witness :
    rowStep [] ["Mid-Range", "", "", "50.0"] =
      dictSet [] (pyStrip "Mid-Range") ⟨0, 0, 50⟩ ∧
    rowStep [] ["Mid-Range", "5", "10"] = [] :=
  ⟨parse_cell_defaults.2.2.2.2 [] "Mid-Range" "50.0" 50 (by decide) (by decide)
      (by decide),
    parse_cell_defaults.2.2.2.1 [] ["Mid-Range", "5", "10"] rfl⟩

/-- C7: `search_player` returns `None` on a raised search request;
otherwise it returns the identifier of the first player link (in
document order) whose display text contains the query as a
case-insensitive substring, and `None` exactly when no candidate does. -/
theorem search_player_first_match :
    (∀ q : String, search_player q .err = none)
    ∧ (∀ (q : String) (links : List (String × String)),
        search_player q (.ok links) =
          ((links.filter fun l => isPlayersLink l.2).find?
              (fun l => pyContains (pyLower l.1) (pyLower q))).map Prod.snd)
    ∧ (∀ (q : String) (links : List (String × String)),
        search_player q (.ok links) = none ↔
          ∀ l ∈ links.filter (fun l => isPlayersLink l.2),
            pyContains (pyLower l.1) (pyLower q) = false) := by
  refine ⟨fun q => rfl, fun q links => searchLoop_eq_find q _, fun q links => ?_⟩
  rw [show search_player q (.ok links) = _ from searchLoop_eq_find q _]
  simp [List.find?_eq_none]

/-- Witness for C7 at a concrete one-link result page. -/
theorem search_player_first_match_witness :
    search_player "LeBron James" (.ok [("LeBron James", "/players/j/jamesle01.html")]) =
      (([("LeBron James", "/players/j/jamesle01.html")].filter
            fun l => isPlayersLink l.2).find?
          (fun l => pyContains (pyLower l.1) (pyLower "LeBron James"))).map Prod.snd :=
  search_player_first_match.2.1 "LeBron James"
    [("LeBron James", "/players/j/jamesle01.html")]

/-- C2 counterexample: the fallback generator `_create_sample_data` has
no `'Free Throws'` zone at all, refuting "every returned profile
populates all seven zones (including Free Throws)"; and `"durant"` is
not a dispatch pattern — Kevin Durant receives the generic table's
Restricted Area values `{100, 150, 66.7}`. -/
theorem sample_dispatch_counterexample :
    dictGet (create_sample_data "Stephen Curry") "Free Throws" = none ∧
    dictGet (create_sample_data "Kevin Durant") "Restricted Area" =
      some (.stats ⟨100, 150, mkRat 667 10⟩) := by
  decide

/-- C2 (amended): `_create_sample_data` is a pure function of the player
name dispatching by case-insensitive substring over exactly two
patterns — contains `"curry"`, contains `"lebron"` or `"james"` — with
every other name receiving the one shared generic table; every returned
profile holds exactly the six zones (no Free Throws) plus the two
metadata keys, and `"Stephen Curry"`'s Restricted Area record is
`{made 45, attempted 60, percentage 75.0}`. -/
theorem sample_dispatch :
    (∀ n : String, (create_sample_data n).map Prod.fst =
      ["Restricted Area", "In The Paint (Non-RA)", "Mid-Range", "Left Corner 3",
       "Right Corner 3", "Above the Break 3", "player_name", "season"])
    ∧ (∀ n : String, pyContains (pyLower n) "curry" = true →
        ∀ z : String, z ≠ "player_name" → z ≠ "season" →
          dictGet (create_sample_data n) z =
            (dictGet curryZones z).map ProfileEntry.stats)
    ∧ (∀ n : String, pyContains (pyLower n) "curry" = false →
        (pyContains (pyLower n) "lebron" || pyContains (pyLower n) "james") = true →
        ∀ z : String, z ≠ "player_name" → z ≠ "season" →
          dictGet (create_sample_data n) z =
            (dictGet lebronZones z).map ProfileEntry.stats)
    ∧ (∀ n : String, pyContains (pyLower n) "curry" = false →
        pyContains (pyLower n) "lebron" = false →
        pyContains (pyLower n) "james" = false →
        ∀ z : String, z ≠ "player_name" → z ≠ "season" →
          dictGet (create_sample_data n) z =
            (dictGet genericZones z).map ProfileEntry.stats)
    ∧ (∀ n : String, dictGet (create_sample_data n) "player_name" = some (.str n) ∧
        dictGet (create_sample_data n) "season" = some (.str "2024"))
    ∧ dictGet (create_sample_data "Stephen Curry") "Restricted Area" =
        some (.stats ⟨45, 60, mkRat 750 10⟩) := by
  have hget : ∀ (n z : String), z ≠ "player_name" → z ≠ "season" →
      dictGet (create_sample_data n) z =
        (dictGet (sampleZonesFor n) z).map ProfileEntry.stats := by
    intro n z hz1 hz2
    unfold create_sample_data
    rw [dictGet_dictSet_ne _ _ _ _ hz2, dictGet_dictSet_ne _ _ _ _ hz1,
      dictGet_zonesAsEntries]
  refine ⟨fun n => ?_, fun n h1 z hz1 hz2 => ?_, fun n h1 h2 z hz1 hz2 => ?_,
    fun n h1 h2 h3 z hz1 hz2 => ?_, fun n => ?_, by decide⟩
  · unfold create_sample_data sampleZonesFor
    by_cases h1 : pyContains (pyLower n) "curry" = true
    · rw [if_pos h1]
      rfl
    · rw [if_neg h1]
      by_cases h2 : (pyContains (pyLower n) "lebron" || pyContains (pyLower n) "james") = true
      · rw [if_pos h2]
        rfl
      · rw [if_neg h2]
        rfl
  · rw [hget n z hz1 hz2]
    unfold sampleZonesFor
    rw [if_pos h1]
  · rw [hget n z hz1 hz2]
    unfold sampleZonesFor
    rw [if_neg (by simp [h1]), if_pos h2]
  · rw [hget n z hz1 hz2]
    unfold sampleZonesFor
    rw [if_neg (by simp [h1]), if_neg (by simp [h2, h3])]
  · exact ⟨dictGet_meta_name _ _ _, dictGet_meta_season _ _ _⟩

/-- Witness for C2 for each of the three dispatch branches. -/
theorem sample_dispatch_witness :
    dictGet (create_sample_data "Stephen Curry") "Mid-Range" =
      (dictGet curryZones "Mid-Range").map ProfileEntry.stats ∧
    dictGet (create_sample_data "LeBron James") "Mid-Range" =
      (dictGet lebronZones "Mid-Range").map ProfileEntry.stats ∧
    dictGet (create_sample_data "Kevin Durant") "Mid-Range" =
      (dictGet genericZones "Mid-Range").map ProfileEntry.stats :=
  ⟨sample_dispatch.2.1 "Stephen Curry" (by decide) "Mid-Range" (by decide) (by decide),
    sample_dispatch.2.2.1 "LeBron James" (by decide) (by decide) "Mid-Range"
      (by decide) (by decide),
    sample_dispatch.2.2.2.1 "Kevin Durant" (by decide) (by decide) (by decide)
      "Mid-Range" (by decide) (by decide)⟩

/-- Whenever the search resolves a player URL, every path of the try
block produces some profile. -/
theorem get_some_of_found (n s : String) (w : World)
    (h : search_player n w.search ≠ none) :
    ∃ p : Profile, get_player_shooting_data n s w = some p := by
  unfold get_player_shooting_data
  rcases hs : search_player n w.search with _ | u
  · exact absurd hs h
  · dsimp only
    rcases hpp : w.playerPage with page | _
    · dsimp only
      rcases hst : page.shootingTable with _ | table
      · dsimp only
        rcases hfl : page.seasonLinks.find? (fun href => pyContains href "shooting")
            with _ | href
        · exact ⟨create_sample_data n, rfl⟩
        · dsimp only
          rcases hsp : w.shootingPage href with t | _
          · rcases t with _ | table2
            · exact ⟨create_sample_data n, rfl⟩
            · exact ⟨finishProfile n s table2, rfl⟩
          · exact ⟨create_sample_data n, rfl⟩
      · exact ⟨finishProfile n s table, rfl⟩
    · exact ⟨create_sample_data n, rfl⟩

/-- Every profile `get_player_shooting_data` returns is either the
sample-data fallback or a parsed table annotated with name and season. -/
theorem get_result_shape (n s : String) (w : World) (p : Profile)
    (h : get_player_shooting_data n s w = some p) :
    p = create_sample_data n ∨ ∃ table, p = finishProfile n s table := by
  have h' := h
  unfold get_player_shooting_data at h'
  rcases hs : search_player n w.search with _ | u
  · simp only [hs] at h'
    exact Option.noConfusion h'
  · simp only [hs] at h'
    rcases hpp : w.playerPage with page | _
    · simp only [hpp] at h'
      rcases hst : page.shootingTable with _ | table
      · simp only [hst] at h'
        rcases hfl : page.seasonLinks.find? (fun href => pyContains href "shooting")
            with _ | href
        · simp only [hfl] at h'
          exact Or.inl (Option.some.inj h').symm
        · simp only [hfl] at h'
          rcases hsp : w.shootingPage href with t | _
          · simp only [hsp] at h'
            rcases t with _ | table2
            · exact Or.inl (Option.some.inj h').symm
            · exact Or.inr ⟨table2, (Option.some.inj h').symm⟩
          · simp only [hsp] at h'
            exact Or.inl (Option.some.inj h').symm
      · simp only [hst] at h'
        exact Or.inr ⟨table, (Option.some.inj h').symm⟩
    · simp only [hpp] at h'
      exact Or.inl (Option.some.inj h').symm

/-- C1 counterexample: when the player search finds no candidate
(`PlayerLocator` NotFound), `get_player_shooting_data` returns `None` —
a failure value, not a fallback profile. -/
theorem fetch_profile_counterexample :
    get_player_shooting_data "LeBron James" "2024" notFoundWorld = none := by
  decide

/-- C1 (amended): a `NotFound` from `search_player` makes
`get_player_shooting_data` return `None` rather than a profile; once a
player URL is found, every failure inside the try block (fetch
exception, sub-page exception, missing or empty table) is caught and
some profile — parsed or sample fallback — is returned. -/
theorem fetch_profile_totality :
    (∀ (n s : String) (w : World), search_player n w.search = none →
      get_player_shooting_data n s w = none)
    ∧ (∀ (n s : String) (w : World), search_player n w.search ≠ none →
      ∃ p : Profile, get_player_shooting_data n s w = some p) := by
  constructor
  · intro n s w h
    unfold get_player_shooting_data
    rw [h]
  · exact fun n s w h => get_some_of_found n s w h

/-- Witness for C1: the NotFound world yields `None`, the network-down
world yields a profile. -/
theorem fetch_profile_totality_witness :
    get_player_shooting_data "Kevin Durant" "2024" notFoundWorld = none ∧
    ∃ p : Profile, get_player_shooting_data "LeBron James" "2024" networkDownWorld = some p :=
  ⟨fetch_profile_totality.1 "Kevin Durant" "2024" notFoundWorld (by decide),
    fetch_profile_totality.2 "LeBron James" "2024" networkDownWorld (by decide)⟩

/-- C3 counterexample: a table that extracts to zero zone rows is
returned as the metadata-only mapping; the sample-data fallback (which
would hold eight entries) is not invoked. -/
theorem empty_extraction_counterexample :
    get_player_shooting_data "LeBron James" "2024" emptyTableWorld =
      some [("player_name", .str "LeBron James"), ("season", .str "2024")] ∧
    some [("player_name", ProfileEntry.str "LeBron James"),
        ("season", ProfileEntry.str "2024")] ≠
      some (create_sample_data "LeBron James") := by
  decide

/-- C3 (amended): when a shooting table is found but extraction yields
zero zone rows, `get_player_shooting_data` returns the empty mapping
annotated with `player_name` and `season`; no fallback occurs. -/
theorem empty_extraction_returns_metadata_only :
    ∀ (n s : String) (w : World) (page : PlayerPage) (table : List (List String)),
      search_player n w.search ≠ none →
      w.playerPage = .ok page →
      page.shootingTable = some table →
      parse_shooting_table table = [] →
      get_player_shooting_data n s w =
        some [("player_name", .str n), ("season", .str s)] := by
  intro n s w page table hs hpp hst hparse
  unfold get_player_shooting_data
  rcases hfound : search_player n w.search with _ | u
  · exact absurd hfound hs
  · simp only [hpp, hst]
    unfold finishProfile
    rw [hparse]
    rfl

/-- Witness for C3 at the concrete header-only table world. -/
theorem empty_extraction_witness :
    get_player_shooting_data "LeBron James" "2024" emptyTableWorld =
      some [("player_name", .str "LeBron James"), ("season", .str "2024")] :=
  empty_extraction_returns_metadata_only "LeBron James" "2024" emptyTableWorld
    ⟨some [["Zone", "FGM", "FGA", "FG%"]], []⟩ [["Zone", "FGM", "FGA", "FG%"]]
    (by decide) rfl rfl (by decide)

/-- C4 counterexample: requesting season `"2023"` on a fallback path
returns the fallback profile stamped with season `"2024"`, not the
requested season. -/
theorem season_annotation_counterexample :
    get_player_shooting_data "Nikola Jokic" "2023" jokicFallbackWorld =
      some (create_sample_data "Nikola Jokic") ∧
    dictGet (create_sample_data "Nikola Jokic") "season" =
      some (ProfileEntry.str "2024") ∧
    some (ProfileEntry.str "2024") ≠ some (ProfileEntry.str "2023") := by
  decide

/-- C4 (amended): on the parsed-table path the profile is annotated with
the requested `player_name` and `season`; on the fallback path it is
annotated with the requested `player_name` but with the constant season
`'2024'` (and on NotFound no profile is returned, per C1). -/
theorem profile_metadata_stamp :
    (∀ (n s : String) (w : World) (page : PlayerPage) (table : List (List String)),
      search_player n w.search ≠ none →
      w.playerPage = .ok page → page.shootingTable = some table →
      ∃ p : Profile, get_player_shooting_data n s w = some p ∧
        dictGet p "player_name" = some (.str n) ∧
        dictGet p "season" = some (.str s))
    ∧ (∀ (n s : String) (w : World),
      search_player n w.search ≠ none → w.playerPage = .err →
      get_player_shooting_data n s w = some (create_sample_data n) ∧
        dictGet (create_sample_data n) "player_name" = some (.str n) ∧
        dictGet (create_sample_data n) "season" = some (.str "2024")) := by
  constructor
  · intro n s w page table hs hpp hst
    rcases hfound : search_player n w.search with _ | u
    · exact absurd hfound hs
    · refine ⟨finishProfile n s table, ?_, dictGet_meta_name _ _ _,
        dictGet_meta_season _ _ _⟩
      unfold get_player_shooting_data
      simp only [hfound, hpp, hst]
  · intro n s w hs hpp
    rcases hfound : search_player n w.search with _ | u
    · exact absurd hfound hs
    · refine ⟨?_, dictGet_meta_name _ _ _, dictGet_meta_season _ _ _⟩
      unfold get_player_shooting_data
      simp only [hfound, hpp]

/-- Witness for C4: a parsed-table request and a fallback request. -/
theorem profile_metadata_stamp_witness :
    (∃ p : Profile,
      get_player_shooting_data "Stephen Curry" "2024" curryTableWorld = some p ∧
        dictGet p "player_name" = some (.str "Stephen Curry") ∧
        dictGet p "season" = some (.str "2024")) ∧
    (get_player_shooting_data "Nikola Jokic" "2023" jokicFallbackWorld =
        some (create_sample_data "Nikola Jokic") ∧
      dictGet (create_sample_data "Nikola Jokic") "player_name" =
        some (.str "Nikola Jokic") ∧
      dictGet (create_sample_data "Nikola Jokic") "season" = some (.str "2024")) :=
  ⟨profile_metadata_stamp.1 "Stephen Curry" "2024" curryTableWorld
      ⟨some [["Zone", "FGM", "FGA", "FG%"], ["Mid-Range", "12", "30", "40.0"]], []⟩
      [["Zone", "FGM", "FGA", "FG%"], ["Mid-Range", "12", "30", "40.0"]]
      (by decide) rfl rfl,
    profile_metadata_stamp.2 "Nikola Jokic" "2023" jokicFallbackWorld (by decide) rfl⟩

/-- C10: every returned profile dict stores the `'player_name'` and
`'season'` entries as keys in the same mapping as the zone records (one
namespace; the fallback stamps season `'2024'`, the parsed path the
requested season), and the `create_shot_chart` consumer selects exactly
the entries whose key lies in the fixed court-zone set and which carry
an `'FG%'` field — so the metadata entries are never plotted as zones. -/
theorem profile_namespace :
    (∀ (n s : String) (w : World) (p : Profile),
      get_player_shooting_data n s w = some p →
      dictGet p "player_name" = some (.str n) ∧
      (dictGet p "season" = some (.str s) ∨
        dictGet p "season" = some (.str "2024")))
    ∧ (∀ (p : Profile) (e : String × ProfileEntry), e ∈ plottedEntries p ↔
        e ∈ p ∧ courtZoneNames.contains e.1 = true ∧ hasFGpctField e.2 = true)
    ∧ (∀ (p : Profile) (v : ProfileEntry),
        ("player_name", v) ∉ plottedEntries p ∧ ("season", v) ∉ plottedEntries p) := by
  refine ⟨fun n s w p h => ?_, fun p e => ?_, fun p v => ⟨fun hmem => ?_, fun hmem => ?_⟩⟩
  · rcases get_result_shape n s w p h with hp | ⟨table, hp⟩
    · subst hp
      exact ⟨dictGet_meta_name _ _ _, Or.inr (dictGet_meta_season _ _ _)⟩
    · subst hp
      exact ⟨dictGet_meta_name _ _ _, Or.inl (dictGet_meta_season _ _ _)⟩
  · simp [plottedEntries, List.mem_filter]
  · have hsel := (List.mem_filter.mp hmem).2
    simp [courtZoneNames] at hsel
  · have hsel := (List.mem_filter.mp hmem).2
    simp [courtZoneNames] at hsel

/-- Witness for C10 on the concrete fallback request. -/
theorem profile_namespace_witness :
    dictGet (create_sample_data "Nikola Jokic") "player_name" =
      some (.str "Nikola Jokic") ∧
    (dictGet (create_sample_data "Nikola Jokic") "season" =
        some (.str "2023") ∨
      dictGet (create_sample_data "Nikola Jokic") "season" =
        some (.str "2024")) :=
  profile_namespace.1 "Nikola Jokic" "2023" jokicFallbackWorld
    (create_sample_data "Nikola Jokic") (by decide)

/-! ## Aggregation lemmas -/

/-- The divide-by-zero discipline a category's percentage must satisfy:
zero attempts give percentage 0, otherwise `100 * made / attempted`. -/
def pctGuarded (made att : Int) (pct : Rat) : Prop :=
  (att = 0 → pct = 0) ∧ (att ≠ 0 → pct = 100 * (made : Rat) / (att : Rat))

theorem pctGuarded_of_ite (made att : Int) (h : 0 ≤ att) :
    pctGuarded made att
      (if 0 < att then ((made : Rat) / (att : Rat)) * 100 else 0) := by
  constructor
  · intro h0
    rw [h0]
    simp
  · intro hne
    rw [if_pos (lt_of_le_of_ne h (Ne.symm hne))]
    ring

theorem zoneFGA_nonneg (m : ZoneMap) (z : String) (h : ∀ p ∈ m, 0 ≤ p.2.FGA) :
    0 ≤ zoneFGA m z := by
  unfold zoneFGA dictGet
  rcases hf : m.find? (fun p => p.1 = z) with _ | pr
  · rw [hf]
    exact le_refl (0 : Int)
  · rw [hf]
    exact h pr (List.mem_of_find?_eq_some hf)

theorem scatter_fga3_nonneg (m : ZoneMap) (h : ∀ p ∈ m, 0 ≤ p.2.FGA) :
    0 ≤ (scatter_calculate_total_stats m).fga3 :=
  add_nonneg (add_nonneg (zoneFGA_nonneg m _ h) (zoneFGA_nonneg m _ h))
    (zoneFGA_nonneg m _ h)

theorem scatter_fga2_nonneg (m : ZoneMap) (h : ∀ p ∈ m, 0 ≤ p.2.FGA) :
    0 ≤ (scatter_calculate_total_stats m).fga2 :=
  add_nonneg (add_nonneg (zoneFGA_nonneg m _ h) (zoneFGA_nonneg m _ h))
    (zoneFGA_nonneg m _ h)

theorem scatter_total_fga_nonneg (m : ZoneMap) (h : ∀ p ∈ m, 0 ≤ p.2.FGA) :
    0 ≤ (scatter_calculate_total_stats m).total_fga :=
  add_nonneg (scatter_fga3_nonneg m h) (scatter_fga2_nonneg m h)

theorem multi_fga3_nonneg (m : ZoneMap) (h : ∀ p ∈ m, 0 ≤ p.2.FGA) :
    0 ≤ (multi_calculate_total_stats m).fga3 :=
  add_nonneg (add_nonneg (zoneFGA_nonneg m _ h) (zoneFGA_nonneg m _ h))
    (zoneFGA_nonneg m _ h)

theorem multi_fga2_nonneg (m : ZoneMap) (h : ∀ p ∈ m, 0 ≤ p.2.FGA) :
    0 ≤ (multi_calculate_total_stats m).fga2 :=
  add_nonneg (add_nonneg (zoneFGA_nonneg m _ h) (zoneFGA_nonneg m _ h))
    (zoneFGA_nonneg m _ h)

theorem multi_total_fga_nonneg (m : ZoneMap) (h : ∀ p ∈ m, 0 ≤ p.2.FGA) :
    0 ≤ (multi_calculate_total_stats m).total_fga :=
  add_nonneg (multi_fga3_nonneg m h) (multi_fga2_nonneg m h)

/-- C8: in both `_calculate_total_stats` implementations every derived
percentage is guarded — a category whose summed attempt count is 0 gets
percentage 0 (no division happens), and otherwise the percentage equals
`100 * made / attempted`.  (Profiles are assumed to carry non-negative
attempt counts, the ZoneRecord invariant of the data model.) -/
theorem aggregate_guard :
    ∀ m : ZoneMap, (∀ p ∈ m, 0 ≤ p.2.FGA) →
      pctGuarded (scatter_calculate_total_stats m).fgm3
        (scatter_calculate_total_stats m).fga3
        (scatter_calculate_total_stats m).fg_pct3 ∧
      pctGuarded (scatter_calculate_total_stats m).fgm2
        (scatter_calculate_total_stats m).fga2
        (scatter_calculate_total_stats m).fg_pct2 ∧
      pctGuarded (scatter_calculate_total_stats m).total_fgm
        (scatter_calculate_total_stats m).total_fga
        (scatter_calculate_total_stats m).total_fg_pct ∧
      pctGuarded (multi_calculate_total_stats m).fgm3
        (multi_calculate_total_stats m).fga3
        (multi_calculate_total_stats m).fg_pct3 ∧
      pctGuarded (multi_calculate_total_stats m).fgm2
        (multi_calculate_total_stats m).fga2
        (multi_calculate_total_stats m).fg_pct2 ∧
      pctGuarded (multi_calculate_total_stats m).ft_fgm
        (multi_calculate_total_stats m).ft_fga
        (multi_calculate_total_stats m).ft_fg_pct ∧
      pctGuarded (multi_calculate_total_stats m).total_fgm
        (multi_calculate_total_stats m).total_fga
        (multi_calculate_total_stats m).total_fg_pct := by
  intro m h
  exact ⟨pctGuarded_of_ite _ _ (scatter_fga3_nonneg m h),
    pctGuarded_of_ite _ _ (scatter_fga2_nonneg m h),
    pctGuarded_of_ite _ _ (scatter_total_fga_nonneg m h),
    pctGuarded_of_ite _ _ (multi_fga3_nonneg m h),
    pctGuarded_of_ite _ _ (multi_fga2_nonneg m h),
    pctGuarded_of_ite _ _ (zoneFGA_nonneg m _ h),
    pctGuarded_of_ite _ _ (multi_total_fga_nonneg m h)⟩

/-- Witness for C8 at the concrete Curry sample zone map. -/
theorem aggregate_guard_witness :
    pctGuarded (scatter_calculate_total_stats curryZones).fgm3
      (scatter_calculate_total_stats curryZones).fga3
      (scatter_calculate_total_stats curryZones).fg_pct3 :=
  (aggregate_guard curryZones (by decide)).1

theorem zoneFGA_dictSet_ne (m : ZoneMap) (k z : String) (r : ZoneStats)
    (h : z ≠ k) : zoneFGA (dictSet m k r) z = zoneFGA m z := by
  unfold zoneFGA
  rw [dictGet_dictSet_ne m k z r h]

theorem zoneFGM_dictSet_ne (m : ZoneMap) (k z : String) (r : ZoneStats)
    (h : z ≠ k) : zoneFGM (dictSet m k r) z = zoneFGM m z := by
  unfold zoneFGM
  rw [dictGet_dictSet_ne m k z r h]

/-- C9: in both implementations `total.made = 3pt.made + 2pt.made` and
`total.attempted = 3pt.attempted + 2pt.attempted`, where the 3PT
category sums the three 3-point zones and the 2PT category the three
2-point zones; free throws are excluded — writing any `'Free Throws'`
record into a profile leaves the total category unchanged. -/
theorem total_is_3pt_plus_2pt :
    (∀ m : ZoneMap,
      (scatter_calculate_total_stats m).total_fgm =
        (scatter_calculate_total_stats m).fgm3 +
          (scatter_calculate_total_stats m).fgm2 ∧
      (scatter_calculate_total_stats m).total_fga =
        (scatter_calculate_total_stats m).fga3 +
          (scatter_calculate_total_stats m).fga2)
    ∧ (∀ m : ZoneMap,
      (multi_calculate_total_stats m).total_fgm =
        (multi_calculate_total_stats m).fgm3 + (multi_calculate_total_stats m).fgm2 ∧
      (multi_calculate_total_stats m).total_fga =
        (multi_calculate_total_stats m).fga3 + (multi_calculate_total_stats m).fga2)
    ∧ (∀ m : ZoneMap,
      (scatter_calculate_total_stats m).fgm3 =
        zoneFGM m "Left Corner 3" + zoneFGM m "Right Corner 3" +
          zoneFGM m "Above the Break 3" ∧
      (scatter_calculate_total_stats m).fga3 =
        zoneFGA m "Left Corner 3" + zoneFGA m "Right Corner 3" +
          zoneFGA m "Above the Break 3" ∧
      (scatter_calculate_total_stats m).fgm2 =
        zoneFGM m "Restricted Area" + zoneFGM m "In The Paint (Non-RA)" +
          zoneFGM m "Mid-Range" ∧
      (scatter_calculate_total_stats m).fga2 =
        zoneFGA m "Restricted Area" + zoneFGA m "In The Paint (Non-RA)" +
          zoneFGA m "Mid-Range")
    ∧ (∀ (m : ZoneMap) (r : ZoneStats),
      (multi_calculate_total_stats (dictSet m "Free Throws" r)).total_fgm =
        (multi_calculate_total_stats m).total_fgm ∧
      (multi_calculate_total_stats (dictSet m "Free Throws" r)).total_fga =
        (multi_calculate_total_stats m).total_fga) := by
  refine ⟨fun m => ⟨rfl, rfl⟩, fun m => ⟨rfl, rfl⟩,
    fun m => ⟨rfl, rfl, rfl, rfl⟩, fun m r => ⟨?_, ?_⟩⟩
  · show zoneFGM (dictSet m "Free Throws" r) "Left Corner 3" +
        zoneFGM (dictSet m "Free Throws" r) "Right Corner 3" +
        zoneFGM (dictSet m "Free Throws" r) "Above the Break 3" +
        (zoneFGM (dictSet m "Free Throws" r) "Restricted Area" +
          zoneFGM (dictSet m "Free Throws" r) "In The Paint (Non-RA)" +
          zoneFGM (dictSet m "Free Throws" r) "Mid-Range") = _
    rw [zoneFGM_dictSet_ne m "Free Throws" "Left Corner 3" r (by decide),
      zoneFGM_dictSet_ne m "Free Throws" "Right Corner 3" r (by decide),
      zoneFGM_dictSet_ne m "Free Throws" "Above the Break 3" r (by decide),
      zoneFGM_dictSet_ne m "Free Throws" "Restricted Area" r (by decide),
      zoneFGM_dictSet_ne m "Free Throws" "In The Paint (Non-RA)" r (by decide),
      zoneFGM_dictSet_ne m "Free Throws" "Mid-Range" r (by decide)]
    rfl
  · show zoneFGA (dictSet m "Free Throws" r) "Left Corner 3" +
        zoneFGA (dictSet m "Free Throws" r) "Right Corner 3" +
        zoneFGA (dictSet m "Free Throws" r) "Above the Break 3" +
        (zoneFGA (dictSet m "Free Throws" r) "Restricted Area" +
          zoneFGA (dictSet m "Free Throws" r) "In The Paint (Non-RA)" +
          zoneFGA (dictSet m "Free Throws" r) "Mid-Range") = _
    rw [zoneFGA_dictSet_ne m "Free Throws" "Left Corner 3" r (by decide),
      zoneFGA_dictSet_ne m "Free Throws" "Right Corner 3" r (by decide),
      zoneFGA_dictSet_ne m "Free Throws" "Above the Break 3" r (by decide),
      zoneFGA_dictSet_ne m "Free Throws" "Restricted Area" r (by decide),
      zoneFGA_dictSet_ne m "Free Throws" "In The Paint (Non-RA)" r (by decide),
      zoneFGA_dictSet_ne m "Free Throws" "Mid-Range" r (by decide)]
    rfl

end ShotComparison
